import Mathlib

/-!
Shallow embedding of the omniocular HR-CNN training harness: the files
`common/train.py` (the `TrainerFactory`) and
`models/diff_token/hr_cnn/__main__.py` (the entry point, the
`UnknownWordVecCache` embedding cache, and `evaluate_dataset`).
External components (torch, dataset loaders, the evaluator and trainer
classes) are modelled abstractly; a definition whose doc comment starts
with `Modelled from the spec:` embeds a component whose code is not part
of the two source files.
-/

namespace Omniocular

/-- Generic association-list lookup, modelling Python dict key lookup
(`k in d` and `d[k]`). -/
def assocLookup {α β : Type} [DecidableEq α] (key : α) : List (α × β) → Option β
  | [] => none
  | (k, v) :: rest => if key = k then some v else assocLookup key rest

/-! ## common/train.py -/

/-- The single trainer class referenced by `trainer_map`
(`DiffStringTrainer`, imported from `trainers.diff_string_trainer`). -/
inductive TrainerClass where
  | DiffStringTrainer
deriving DecidableEq, Repr

/-- `TrainerFactory.trainer_map`: maps the name `VulasDiff` to
`DiffStringTrainer` and nothing else. -/
def trainer_map : List (String × TrainerClass) :=
  [("VulasDiff", TrainerClass.DiffStringTrainer)]

/-- A trainer as constructed by `TrainerFactory.get_trainer`: the class
looked up in `trainer_map` applied to the supplied dependencies, in the
argument order of the source. -/
structure ConstructedTrainer (M E L C V : Type) where
  cls : TrainerClass
  model : M
  embedding : E
  train_loader : L
  trainer_config : C
  train_evaluator : V
  test_evaluator : V
  dev_evaluator : Option V
deriving DecidableEq

/-- `TrainerFactory.get_trainer`: if `dataset_name` is not a key of
`trainer_map`, raise `ValueError` with message
`dataset_name ++ " is not implemented."` (the result of
formatting the name into the template); otherwise construct and return
the mapped trainer class with the supplied dependencies. -/
def get_trainer {M E L C V : Type} (dataset_name : String) (model : M) (embedding : E)
    (train_loader : L) (trainer_config : C) (train_evaluator : V) (test_evaluator : V)
    (dev_evaluator : Option V) : Except String (ConstructedTrainer M E L C V) :=
  match assocLookup dataset_name trainer_map with
  | none => Except.error (dataset_name ++ " is not implemented.")
  | some cls =>
    Except.ok ⟨cls, model, embedding, train_loader, trainer_config,
      train_evaluator, test_evaluator, dev_evaluator⟩

/-! ## models/diff_token/hr_cnn/__main__.py : dataset map -/

/-- The single dataset class referenced by the entry point
(`VulasDiffTokenHierarchical`, imported from `datasets.vulas_diff_token`). -/
inductive DatasetClass where
  | VulasDiffTokenHierarchical
deriving DecidableEq, Repr

/-- The entry point `dataset_map`: maps the name `VulasDiffToken` to
`VulasDiffTokenHierarchical` and nothing else. -/
def dataset_map : List (String × DatasetClass) :=
  [("VulasDiffToken", DatasetClass.VulasDiffTokenHierarchical)]

/-! ## models/diff_token/hr_cnn/__main__.py : UnknownWordVecCache -/

/-- A tensor shape, the key of the embedding cache (`tuple(tensor.size())`). -/
abbrev Shape := List Nat

/-- The process-wide state of `UnknownWordVecCache`: the `cache` dict from
shapes to vectors, plus an abstract random-generator state (`rng`) that
advances each time a fresh vector is drawn. -/
structure CacheState (V : Type) where
  cache : List (Shape × V)
  rng : Nat
deriving DecidableEq, Repr

/-- `UnknownWordVecCache.unk`: look the shape up in the cache; on a miss,
draw a fresh vector for that shape (`torch.Tensor(size).uniform_(-0.25, 0.25)`,
modelled by the abstract generator `gen` applied to the current rng state and
the shape), store it under the shape, and return the stored vector; on a hit,
return the stored vector and leave the state unchanged. -/
def unk {V : Type} (gen : Nat → Shape → V) (st : CacheState V) (s : Shape) :
    V × CacheState V :=
  match assocLookup s st.cache with
  | some v => (v, st)
  | none =>
    let v := gen st.rng s
    (v, ⟨(s, v) :: st.cache, st.rng + 1⟩)

/-- A sequence of calls to `UnknownWordVecCache.unk`, threading the
process-wide state. -/
def runCalls {V : Type} (gen : Nat → Shape → V) : CacheState V → List Shape → CacheState V
  | st, [] => st
  | st, s :: ss => runCalls gen (unk gen st s).2 ss

/-- An entry present in the cache survives any later `unk` call: `unk`
only ever adds new keys, it never removes or overwrites one. -/
theorem unk_preserves_entry {V : Type} (gen : Nat → Shape → V) (st : CacheState V)
    (s s2 : Shape) (v : V) (h : assocLookup s st.cache = some v) :
    assocLookup s (unk gen st s2).2.cache = some v := by
  unfold unk
  cases h2 : assocLookup s2 st.cache with
  | some v2 => simpa using h
  | none =>
    have hne : s ≠ s2 := by
      intro he; subst he; rw [h] at h2; exact Option.noConfusion h2
    simp [assocLookup, hne, h]

/-- An entry present in the cache survives any sequence of later `unk` calls. -/
theorem runCalls_preserves_entry {V : Type} (gen : Nat → Shape → V) (more : List Shape) :
    ∀ (st : CacheState V) (s : Shape) (v : V), assocLookup s st.cache = some v →
      assocLookup s (runCalls gen st more).cache = some v := by
  induction more with
  | nil => intro st s v h; simpa [runCalls] using h
  | cons s2 ss ih =>
    intro st s v h
    exact ih _ s v (unk_preserves_entry gen st s s2 v h)

/-! ## Claim theorems: factory and cache -/

/-- Claim C1: the entry point accepts exactly the dataset name
`VulasDiffToken` (it is a key of `dataset_map`), yet
`TrainerFactory.get_trainer` applied to that name raises
`ValueError("VulasDiffToken is not implemented.")` instead of
constructing a trainer, because `trainer_map` only holds the key
`VulasDiff`.  This refutes the claim that the factory succeeds on every
name the entry point supports. -/
theorem get_trainer_raises_on_entry_dataset_name {M E L C V : Type} (model : M)
    (embedding : E) (train_loader : L) (trainer_config : C)
    (train_evaluator : V) (test_evaluator : V) (dev_evaluator : Option V) :
    assocLookup "VulasDiffToken" dataset_map = some DatasetClass.VulasDiffTokenHierarchical ∧
    get_trainer "VulasDiffToken" model embedding train_loader trainer_config
      train_evaluator test_evaluator dev_evaluator =
      Except.error "VulasDiffToken is not implemented." := by
  constructor
  · decide
  · unfold get_trainer
    have h : assocLookup "VulasDiffToken" trainer_map = (none : Option TrainerClass) := by
      decide
    rw [h]
    rfl

/-- Claim C3: for every dataset name that is not a key of `trainer_map`,
`get_trainer` returns the configuration error whose message is the name
followed by the fixed suffix, so the message contains the offending
name as a substring, and no trainer is constructed (the result is an
error, never an `ok`). -/
theorem get_trainer_unrecognized_name_errors {M E L C V : Type} (dataset_name : String)
    (model : M) (embedding : E) (train_loader : L) (trainer_config : C)
    (train_evaluator : V) (test_evaluator : V) (dev_evaluator : Option V)
    (h : assocLookup dataset_name trainer_map = none) :
    get_trainer dataset_name model embedding train_loader trainer_config
      train_evaluator test_evaluator dev_evaluator =
      Except.error (dataset_name ++ " is not implemented.") ∧
    List.IsInfix dataset_name.data (dataset_name ++ " is not implemented.").data ∧
    ∀ t : ConstructedTrainer M E L C V,
      get_trainer dataset_name model embedding train_loader trainer_config
        train_evaluator test_evaluator dev_evaluator ≠ Except.ok t := by
  refine ⟨?_, ?_, ?_⟩
  · unfold get_trainer; rw [h]
  · refine ⟨[], " is not implemented.".data, ?_⟩
    simp [String.data_append]
  · intro t hok
    unfold get_trainer at hok
    rw [h] at hok
    exact Except.noConfusion hok

/-- Witness for C3 at the concrete unrecognized name `Foobar`. -/
theorem get_trainer_unrecognized_name_errors_witness :
    get_trainer (M := Unit) (E := Unit) (L := Unit) (C := Unit) (V := Unit)
      "Foobar" () () () () () () none =
      Except.error "Foobar is not implemented." :=
  (get_trainer_unrecognized_name_errors "Foobar" () () () () () () none (by decide)).1

/-- Claim C2: for every cache state and shape, a call to
`UnknownWordVecCache.unk` on a shape not yet cached draws a fresh vector
and retains it under that shape; a call on a cached shape returns the
retained vector and leaves the state untouched; and the retained vector
survives every sequence of subsequent calls, so every subsequent call
with the same shape returns that very vector. -/
theorem unk_memoizes {V : Type} (gen : Nat → Shape → V) (st : CacheState V) (s : Shape) :
    (assocLookup s st.cache = none →
      (unk gen st s).1 = gen st.rng s ∧
      assocLookup s (unk gen st s).2.cache = some ((unk gen st s).1)) ∧
    (∀ v : V, assocLookup s st.cache = some v → unk gen st s = (v, st)) ∧
    (∀ (more : List Shape) (v : V), assocLookup s st.cache = some v →
      (unk gen (runCalls gen st more) s).1 = v) := by
  refine ⟨?_, ?_, ?_⟩
  · intro hmiss
    unfold unk
    rw [hmiss]
    exact ⟨rfl, by simp [assocLookup]⟩
  · intro v hhit
    unfold unk
    rw [hhit]
  · intro more v hhit
    have h2 := runCalls_preserves_entry gen more st s v hhit
    unfold unk
    rw [h2]

/-- Concrete generator for the C2 witness: encodes the rng state and the
shape into an integer vector, so distinct draws are distinguishable. -/
def genW : Nat → Shape → List Int :=
  fun n s => (Int.ofNat n) :: s.map Int.ofNat

/-- Concrete cache state for the C2 witness: the state after a first call
with shape `[3]` starting from the empty cache. -/
def stW : CacheState (List Int) :=
  (unk genW ⟨[], 0⟩ [3]).2

/-- Witness for C2: starting from the empty cache, the first call with
shape `[3]` draws `genW 0 [3]` and retains it, and after two further
calls (a different shape `[4]`, then `[3]` again) the call with `[3]`
still returns the retained vector. -/
theorem unk_memoizes_witness :
    (unk genW ⟨[], 0⟩ [3]).1 = genW 0 [3] ∧
    (unk genW (runCalls genW stW [[4], [3]]) [3]).1 = genW 0 [3] := by
  refine ⟨((unk_memoizes genW ⟨[], 0⟩ [3]).1 (by decide)).1, ?_⟩
  exact (unk_memoizes genW stW [3]).2.2 [[4], [3]] (genW 0 [3]) (by decide)

/-! ## models/diff_token/hr_cnn/__main__.py : entry-point configuration -/

/-- The command-line arguments the entry point reads (`get_args()`):
only the fields the entry point itself consumes.  The optional snapshot
and pretrained paths model Python truthiness of `args.resume_snapshot`
and `args.trained_model` (absent or empty = `none`). -/
structure Args where
  seed : Int
  cuda : Bool
  gpu : Nat
  dataset : String
  batch_size : Nat
  epochs : Nat
  lr : Int
  weight_decay : Int
  log_every : Nat
  patience : Nat
  save_path : String
  resume_snapshot : Option String
  trained_model : Option String
  matrix_path : String
deriving DecidableEq, Repr

/-- The `map_location` argument of a `torch.load` call: remap every
storage onto the accelerator (`lambda storage, location: storage.cuda(args.gpu)`)
or keep the deserialized general-purpose storage
(`lambda storage, location: storage`). -/
inductive MapLocation where
  | toCuda (gpu : Nat)
  | identity
deriving DecidableEq, Repr

/-- One `torch.load` call: the path loaded, and the `map_location`
passed (`none` when the call passes no `map_location` at all). -/
structure LoadCall where
  path : String
  mapLocation : Option MapLocation
deriving DecidableEq, Repr

/-- The `torch.load` of `args.resume_snapshot` (entry point, resume branch):
remaps to the accelerator when `args.cuda`, otherwise keeps storages as
deserialized. -/
def resumeLoadCall (args : Args) (p : String) : LoadCall :=
  ⟨p, some (if args.cuda then MapLocation.toCuda args.gpu else MapLocation.identity)⟩

/-- The `torch.load` of `args.trained_model` (entry point, pretrained branch):
same remapping policy as the resume load. -/
def trainedLoadCall (args : Args) (p : String) : LoadCall :=
  ⟨p, some (if args.cuda then MapLocation.toCuda args.gpu else MapLocation.identity)⟩

/-- The `torch.load(trainer.snapshot_path)` reload of the best snapshot
before the final evaluations: the source passes no `map_location`. -/
def snapshotReloadCall (sp : String) : LoadCall :=
  ⟨sp, none⟩

/-- Every `torch.load` the entry point can perform in one run, in program
order: the resume load (when `args.resume_snapshot` is truthy), the
pretrained-model load (when `args.trained_model` is truthy), and the
best-snapshot reload (when the trainer has a `snapshot_path` attribute,
modelled by `trainerSnapshotPath`). -/
def entryLoads (args : Args) (trainerSnapshotPath : Option String) : List LoadCall :=
  (match args.resume_snapshot with
    | some p => [resumeLoadCall args p]
    | none => []) ++
  (match args.trained_model with
    | some p => [trainedLoadCall args p]
    | none => []) ++
  (match trainerSnapshotPath with
    | some sp => [snapshotReloadCall sp]
    | none => [])

/-! ## Entry-point event trace -/

/-- The observable steps of the entry point, in program order.  Print
statements that allocate nothing are omitted. -/
inductive Event where
  | seed_torch (s : Int)
  | cudnn_deterministic
  | set_device_cuda (gpu : Nat)
  | set_device_cpu
  | warn_cpu
  | seed_numpy (s : Int)
  | seed_random (s : Int)
  | build_logger
  | load_dataset_iters
  | construct_model
  | load_model (lc : LoadCall)
  | build_optimizer
  | build_evaluator (split : String)
  | build_trainer
  | train_call
deriving DecidableEq, Repr

/-- Whether an event allocates a training resource (data iterators,
model, optimizer, evaluators, trainer, or a training run). -/
def Event.isTrainingResource : Event → Bool
  | .load_dataset_iters => true
  | .construct_model => true
  | .load_model _ => true
  | .build_optimizer => true
  | .build_evaluator _ => true
  | .build_trainer => true
  | .train_call => true
  | _ => false

/-- The events of the entry point before the dataset-name check: seeding
of the torch RNG, cudnn determinism flag, device selection, the CPU
warning, numpy and python RNG seeding, and logger construction
(source lines 63 to 78). -/
def preludeEvents (cudaAvailable : Bool) (args : Args) : List Event :=
  [Event.seed_torch args.seed, Event.cudnn_deterministic] ++
  (if cudaAvailable && args.cuda then [Event.set_device_cuda args.gpu]
    else [Event.set_device_cpu]) ++
  (if cudaAvailable && !args.cuda then [Event.warn_cpu] else []) ++
  [Event.seed_numpy args.seed, Event.seed_random args.seed, Event.build_logger]

/-- The full entry-point run as an event trace paired with the message of
the `ValueError` that terminates it, if one is raised: the prelude, the
dataset-map check (raising the fixed message `Unrecognized dataset` on a
miss), dataset-iterator loading, model resume-or-construct, optimizer and
evaluator construction, the trainer-factory lookup (raising its formatted
message on a miss), then training or the pretrained load, and the
best-snapshot reload when the trainer exposes `snapshot_path`. -/
def mainTrace (cudaAvailable : Bool) (args : Args)
    (trainerSnapshotPath : Option String) : List Event × Option String :=
  let evs := preludeEvents cudaAvailable args
  match assocLookup args.dataset dataset_map with
  | none => (evs, some "Unrecognized dataset")
  | some _ =>
    let evs := evs ++ [Event.load_dataset_iters]
    let evs := evs ++
      (match args.resume_snapshot with
        | some p => [Event.load_model (resumeLoadCall args p)]
        | none => [Event.construct_model])
    let evs := evs ++ [Event.build_optimizer, Event.build_evaluator "train",
      Event.build_evaluator "test", Event.build_evaluator "dev"]
    match assocLookup args.dataset trainer_map with
    | none => (evs, some (args.dataset ++ " is not implemented."))
    | some _ =>
      let evs := evs ++ [Event.build_trainer]
      let evs := evs ++
        (match args.trained_model with
          | none => [Event.train_call]
          | some p => [Event.load_model (trainedLoadCall args p)])
      let evs := evs ++
        (match trainerSnapshotPath with
          | some sp => [Event.load_model (snapshotReloadCall sp)]
          | none => [])
      (evs, none)

/-! ## Claim theorems: dataset-name rejection (C5) and load remapping (C4) -/

/-- Counterexample to claim C5: at the concrete unrecognized dataset name
`Foo`, the entry point raises the fixed message `Unrecognized dataset`,
which does not contain the offending name, so the error message does not
identify the invalid dataset name. -/
theorem entry_rejection_message_omits_name :
    (mainTrace false
      ⟨0, false, 0, "Foo", 1, 1, 0, 0, 1, 1, "s", none, none, "m"⟩ none).2 =
      some "Unrecognized dataset" ∧
    ¬ List.IsInfix "Foo".data "Unrecognized dataset".data := by
  constructor
  · rfl
  · decide

/-- Claim C5 (amended): whenever the entry point rejects an unrecognized
dataset name, the raise is synchronous, the trace holds no
training-resource event (no iterators, model, optimizer, evaluator,
trainer, load, or training run precede it), and the message is the fixed
string `Unrecognized dataset`, which does not identify the offending
name. -/
theorem entry_rejects_unknown_dataset_before_resources (cudaAvailable : Bool)
    (args : Args) (tsp : Option String)
    (h : assocLookup args.dataset dataset_map = none) :
    mainTrace cudaAvailable args tsp =
      (preludeEvents cudaAvailable args, some "Unrecognized dataset") ∧
    ∀ e ∈ (mainTrace cudaAvailable args tsp).1, e.isTrainingResource = false := by
  have hm : mainTrace cudaAvailable args tsp =
      (preludeEvents cudaAvailable args, some "Unrecognized dataset") := by
    unfold mainTrace
    rw [h]
  refine ⟨hm, ?_⟩
  rw [hm]
  cases cudaAvailable <;> cases hc : args.cuda <;>
    simp [preludeEvents, hc, Event.isTrainingResource, List.forall_mem_cons]

/-- Witness for the amended C5 at a concrete unrecognized name. -/
theorem entry_rejects_unknown_dataset_before_resources_witness :
    mainTrace false ⟨7, false, 0, "NotADataset", 8, 2, 0, 0, 1, 3, "s", none, none, "m"⟩ none =
      (preludeEvents false ⟨7, false, 0, "NotADataset", 8, 2, 0, 0, 1, 3, "s", none, none, "m"⟩,
        some "Unrecognized dataset") :=
  (entry_rejects_unknown_dataset_before_resources false
    ⟨7, false, 0, "NotADataset", 8, 2, 0, 0, 1, 3, "s", none, none, "m"⟩ none (by decide)).1

/-- Counterexample to claim C4: with a pretrained model supplied and a
trainer exposing `snapshot_path`, not every load performed by the entry
point passes a `map_location`: the best-snapshot reload is a plain
`torch.load` without device remapping. -/
theorem entry_load_without_remap_exists :
    ¬ (∀ lc ∈ entryLoads
        ⟨0, true, 0, "VulasDiffToken", 1, 1, 0, 0, 1, 1, "s", none, some "pre.pt", "m"⟩
        (some "snap.pt"), lc.mapLocation.isSome = true) := by
  intro hall
  have h := hall (snapshotReloadCall "snap.pt") (by decide)
  simp [snapshotReloadCall] at h

/-- Claim C4 (amended): the resume-snapshot load and the pretrained-model
load each pass a `map_location` (to the accelerator when `args.cuda`,
otherwise the identity remapping onto general-purpose storage), while
the best-snapshot reload after training passes none. -/
theorem entry_loads_remapping (args : Args) (p sp : String) :
    (resumeLoadCall args p).mapLocation.isSome = true ∧
    (trainedLoadCall args p).mapLocation.isSome = true ∧
    (snapshotReloadCall sp).mapLocation = none := by
  refine ⟨?_, ?_, rfl⟩ <;> simp [resumeLoadCall, trainedLoadCall]

/-! ## Entry point: training-or-load branch and best-snapshot reload -/

/-- The constructed trainer as the entry point tail sees it: whether it
exposes a `snapshot_path` attribute and, if so, its value
(`hasattr(trainer, s)` is `isSome`). -/
structure TrainerObj where
  snapshot_path : Option String
deriving DecidableEq, Repr

/-- Result of the entry point code after trainer construction (source
lines 151 to 161): whether `trainer.train(args.epochs)` ran, the
`torch.load` calls performed in order, and the model variable left for
the final evaluations. -/
structure FinalizeResult (Model : Type) where
  train_called : Bool
  loads : List LoadCall
  final_model : Model
deriving DecidableEq, Repr

/-- Source lines 151 to 161: when `args.trained_model` is falsy, run
`trainer.train(args.epochs)` (an in-place effect on the model, modelled
by `trainEffect`); otherwise load the pretrained model with device
remapping.  Then, when the trainer has a `snapshot_path` attribute,
rebind the model to a plain `torch.load` of that path. -/
def finalizeModel {Model : Type} (args : Args) (trainer : TrainerObj) (model0 : Model)
    (trainEffect : Model → Model) (load : LoadCall → Model) : FinalizeResult Model :=
  let step1 : Model × Bool × List LoadCall :=
    match args.trained_model with
    | none => (trainEffect model0, true, [])
    | some p =>
      let lc := trainedLoadCall args p
      (load lc, false, [lc])
  match trainer.snapshot_path with
  | some sp =>
    let lc := snapshotReloadCall sp
    ⟨step1.2.1, step1.2.2 ++ [lc], load lc⟩
  | none => ⟨step1.2.1, step1.2.2, step1.1⟩

/-! ## Claim theorem: pretrained model discarded for the best snapshot (C9) -/

/-- Claim C9: when a pretrained model path is supplied, `trainer.train`
is not called and the model is loaded from that path with device
remapping; when the trainer additionally exposes `snapshot_path`, that
loaded pretrained model is discarded: the model used for the final
evaluations is the one loaded from `trainer.snapshot_path`. -/
theorem pretrained_model_replaced_by_snapshot {Model : Type} (args : Args)
    (trainer : TrainerObj) (model0 : Model) (trainEffect : Model → Model)
    (load : LoadCall → Model) (p sp : String)
    (hp : args.trained_model = some p) (hsp : trainer.snapshot_path = some sp) :
    (finalizeModel args trainer model0 trainEffect load).train_called = false ∧
    (finalizeModel args trainer model0 trainEffect load).loads =
      [trainedLoadCall args p, snapshotReloadCall sp] ∧
    (finalizeModel args trainer model0 trainEffect load).final_model =
      load (snapshotReloadCall sp) := by
  unfold finalizeModel
  rw [hp, hsp]
  exact ⟨rfl, rfl, rfl⟩

/-- Witness for C9 at concrete arguments: pretrained path `pre.pt`,
snapshot path `snap.pt`, with the model type `String` and the load
function returning the loaded path. -/
theorem pretrained_model_replaced_by_snapshot_witness :
    (finalizeModel ⟨0, false, 0, "VulasDiffToken", 1, 1, 0, 0, 1, 1, "s", none,
        some "pre.pt", "m"⟩ ⟨some "snap.pt"⟩ "init" (fun m => m)
        (fun lc => lc.path)).final_model = "snap.pt" :=
  (pretrained_model_replaced_by_snapshot
    ⟨0, false, 0, "VulasDiffToken", 1, 1, 0, 0, 1, 1, "s", none, some "pre.pt", "m"⟩
    ⟨some "snap.pt"⟩ "init" (fun m => m) (fun lc => lc.path)
    "pre.pt" "snap.pt" rfl rfl).2.2

/-! ## Evaluators and the trainer configuration -/

/-- An evaluator as returned by `EvaluatorFactory.get_evaluator`
(the factory itself lives outside the two source files).  `hasattr`
probing is modelled by the two `has_` flags; `get_scores` is the
abstract metric computation, a function of the two configurable flags
and the output path, returning scores and metric names. -/
structure Evaluator (S : Type) where
  has_is_multilabel : Bool
  is_multilabel : Bool
  has_ignore_lengths : Bool
  ignore_lengths : Bool
  get_scores : Bool → Bool → String → List S × List String

/-- `if hasattr(ev, 'is_multilabel'): ev.is_multilabel = b`. -/
def setIsMultilabelIfPresent {S : Type} (ev : Evaluator S) (b : Bool) : Evaluator S :=
  if ev.has_is_multilabel then { ev with is_multilabel := b } else ev

/-- `if hasattr(ev, 'ignore_lengths'): ev.ignore_lengths = True`
(source lines 144 to 147 for the dev and test evaluators, and lines
50 to 51 inside `evaluate_dataset`). -/
def setIgnoreLengthsIfPresent {S : Type} (ev : Evaluator S) : Evaluator S :=
  if ev.has_ignore_lengths then { ev with ignore_lengths := true } else ev

/-- The `trainer_config` dict assembled by the entry point (source lines
133 to 142), with `ignore_lengths` the literal `True`. -/
structure TrainerConfig (Opt Logger : Type) where
  optimizer : Opt
  batch_size : Nat
  log_interval : Nat
  patience : Nat
  model_outfile : String
  logger : Logger
  ignore_lengths : Bool
  is_multilabel : Bool

/-- Assembles `trainer_config` from the parsed arguments, the optimizer,
the logger, and the dataset class `IS_MULTILABEL` flag, exactly as the
source does. -/
def mkTrainerConfig {Opt Logger : Type} (args : Args) (optimizer : Opt)
    (logger : Logger) (datasetIsMultilabel : Bool) : TrainerConfig Opt Logger :=
  { optimizer := optimizer
    batch_size := args.batch_size
    log_interval := args.log_every
    patience := args.patience
    model_outfile := args.save_path
    logger := logger
    ignore_lengths := true
    is_multilabel := datasetIsMultilabel }

/-! ## Claim theorem: ignore_lengths is always true (C10) -/

/-- Claim C10: for every parsed argument bundle the assembled
`trainer_config` has `ignore_lengths = true` (no command-line input can
make it false, since the source writes the literal), and every evaluator
that has an `ignore_lengths` attribute ends up with it set to true after
the entry point's conditional assignment, both at lines 144 to 147 and
inside `evaluate_dataset`. -/
theorem ignore_lengths_always_true {Opt Logger S : Type} (args : Args)
    (optimizer : Opt) (logger : Logger) (iml : Bool) (ev : Evaluator S) :
    (mkTrainerConfig args optimizer logger iml).ignore_lengths = true ∧
    ((setIgnoreLengthsIfPresent ev).has_ignore_lengths = true →
      (setIgnoreLengthsIfPresent ev).ignore_lengths = true) ∧
    ((setIgnoreLengthsIfPresent (setIsMultilabelIfPresent ev iml)).has_ignore_lengths = true →
      (setIgnoreLengthsIfPresent (setIsMultilabelIfPresent ev iml)).ignore_lengths = true) := by
  refine ⟨rfl, ?_, ?_⟩
  · intro h
    unfold setIgnoreLengthsIfPresent at h ⊢
    cases hh : ev.has_ignore_lengths with
    | true => simp [hh]
    | false => simp [hh] at h
  · intro h
    unfold setIgnoreLengthsIfPresent at h ⊢
    cases hh : (setIsMultilabelIfPresent ev iml).has_ignore_lengths with
    | true => simp [hh]
    | false => simp [hh] at h

/-- Concrete evaluator for the C10 witness: has both attributes, both
initially false. -/
def evW : Evaluator Nat :=
  ⟨true, false, true, false, fun _ _ _ => ([], [])⟩

/-- Witness for C10 at concrete inputs: the config flag and the
configured concrete evaluator flag are both true. -/
theorem ignore_lengths_always_true_witness :
    (mkTrainerConfig ⟨0, false, 0, "VulasDiffToken", 1, 1, 0, 0, 1, 1, "s", none, none, "m"⟩
      () () true).ignore_lengths = true ∧
    (setIgnoreLengthsIfPresent evW).ignore_lengths = true :=
  ⟨(ignore_lengths_always_true
      ⟨0, false, 0, "VulasDiffToken", 1, 1, 0, 0, 1, 1, "s", none, none, "m"⟩
      () () true evW).1,
   (ignore_lengths_always_true
      ⟨0, false, 0, "VulasDiffToken", 1, 1, 0, 0, 1, 1, "s", none, none, "m"⟩
      () () true evW).2.1 rfl⟩

/-! ## evaluate_dataset and the final reporting -/

/-- One line of standard output written by `evaluate_dataset`: the
`Evaluation metrics for <split>` header, the metric-name list, or the
metric-value list. -/
inductive OutputLine (S : Type) where
  | header (split : String)
  | metric_names (names : List String)
  | metric_scores (values : List S)
deriving DecidableEq, Repr

/-- `os.path.join(matrix_path, split)` for the two final calls. -/
def pathJoin (a b : String) : String := a ++ "/" ++ b

/-- The scores and metric names `evaluate_dataset` obtains for one split:
build the evaluator through the factory, set `is_multilabel` and
`ignore_lengths` when present, then call
`get_scores(matrix_path)` (which reads the two flags of the evaluator it
is bound to). -/
def splitScores {DS M E L D S : Type}
    (get_evaluator : DS → M → Option E → L → Nat → D → Evaluator S)
    (dataset_cls : DS) (model : M) (embedding : Option E) (loader : L)
    (batch_size : Nat) (device : D) (iml : Bool) (matrix_path : String) :
    List S × List String :=
  let ev := setIgnoreLengthsIfPresent
    (setIsMultilabelIfPresent (get_evaluator dataset_cls model embedding loader batch_size device) iml)
  ev.get_scores ev.is_multilabel ev.ignore_lengths matrix_path

/-- `evaluate_dataset` (source lines 44 to 56): compute the split scores
and print the header with the split name, then the metric-name list,
then the score list. -/
def evaluate_dataset {DS M E L D S : Type}
    (get_evaluator : DS → M → Option E → L → Nat → D → Evaluator S)
    (split_name : String) (dataset_cls : DS) (model : M) (embedding : Option E)
    (loader : L) (batch_size : Nat) (device : D) (iml : Bool)
    (matrix_path : String) : List (OutputLine S) :=
  let res := splitScores get_evaluator dataset_cls model embedding loader batch_size device
    iml matrix_path
  [OutputLine.header split_name, OutputLine.metric_names res.2,
    OutputLine.metric_scores res.1]

/-- The two final evaluation calls of the entry point (source lines 163
to 168): `dev` with output path `matrix_path/dev`, then `test` with
output path `matrix_path/test`, both with the dataset `IS_MULTILABEL`
flag and `device=args.gpu`. -/
def finalEvaluations {DS M E L S : Type}
    (get_evaluator : DS → M → Option E → L → Nat → Nat → Evaluator S)
    (dataset_cls : DS) (model : M) (dev_iter test_iter : L)
    (args : Args) (datasetIsMultilabel : Bool) : List (OutputLine S) :=
  evaluate_dataset get_evaluator "dev" dataset_cls model none dev_iter args.batch_size
    args.gpu datasetIsMultilabel (pathJoin args.matrix_path "dev") ++
  evaluate_dataset get_evaluator "test" dataset_cls model none test_iter args.batch_size
    args.gpu datasetIsMultilabel (pathJoin args.matrix_path "test")

/-- Configuring an evaluator never changes its `get_scores` function. -/
theorem configure_preserves_get_scores {S : Type} (ev : Evaluator S) (b : Bool) :
    (setIgnoreLengthsIfPresent (setIsMultilabelIfPresent ev b)).get_scores = ev.get_scores := by
  unfold setIgnoreLengthsIfPresent setIsMultilabelIfPresent
  split <;> split <;> rfl

/-! ## Claim theorem: final reporting (C8) -/

/-- Claim C8: the entry point's final reporting prints, for the `dev`
split and then the `test` split, the header naming the split, then the
metric-name list, then the metric-value list, where both lists come from
the one `get_scores` call of that split's freshly configured evaluator;
and whenever `get_scores` returns parallel sequences (equal lengths, as
the spec states for the external evaluator), the two printed lists are
parallel as well. -/
theorem final_reporting_prints_split_names_scores {DS M E L S : Type}
    (get_evaluator : DS → M → Option E → L → Nat → Nat → Evaluator S)
    (dataset_cls : DS) (model : M) (dev_iter test_iter : L) (args : Args) (iml : Bool)
    (hpar : ∀ (l : L) (b1 b2 : Bool) (p : String),
      ((get_evaluator dataset_cls model none l args.batch_size args.gpu).get_scores b1 b2 p).1.length =
      ((get_evaluator dataset_cls model none l args.batch_size args.gpu).get_scores b1 b2 p).2.length) :
    finalEvaluations get_evaluator dataset_cls model dev_iter test_iter args iml =
      [OutputLine.header "dev",
       OutputLine.metric_names (splitScores get_evaluator dataset_cls model none dev_iter
         args.batch_size args.gpu iml (pathJoin args.matrix_path "dev")).2,
       OutputLine.metric_scores (splitScores get_evaluator dataset_cls model none dev_iter
         args.batch_size args.gpu iml (pathJoin args.matrix_path "dev")).1,
       OutputLine.header "test",
       OutputLine.metric_names (splitScores get_evaluator dataset_cls model none test_iter
         args.batch_size args.gpu iml (pathJoin args.matrix_path "test")).2,
       OutputLine.metric_scores (splitScores get_evaluator dataset_cls model none test_iter
         args.batch_size args.gpu iml (pathJoin args.matrix_path "test")).1] ∧
    (splitScores get_evaluator dataset_cls model none dev_iter args.batch_size args.gpu iml
      (pathJoin args.matrix_path "dev")).1.length =
    (splitScores get_evaluator dataset_cls model none dev_iter args.batch_size args.gpu iml
      (pathJoin args.matrix_path "dev")).2.length ∧
    (splitScores get_evaluator dataset_cls model none test_iter args.batch_size args.gpu iml
      (pathJoin args.matrix_path "test")).1.length =
    (splitScores get_evaluator dataset_cls model none test_iter args.batch_size args.gpu iml
      (pathJoin args.matrix_path "test")).2.length := by
  refine ⟨rfl, ?_, ?_⟩ <;>
    · simp only [splitScores, configure_preserves_get_scores]
      exact hpar _ _ _ _

/-- Concrete evaluator factory for the C8 witness: two metrics with
fixed names and values, independent of the split. -/
def gwEval : Unit → Unit → Option Unit → Bool → Nat → Nat → Evaluator Nat :=
  fun _ _ _ _ _ _ => ⟨true, false, true, false, fun _ _ _ => ([4, 7], ["accuracy", "f1"])⟩

/-- Concrete arguments for the C8 witness. -/
def argsW8 : Args :=
  ⟨0, false, 0, "VulasDiffToken", 16, 2, 0, 0, 1, 1, "s", none, none, "matrices"⟩

/-- Witness for C8: at the concrete evaluator factory, the final
reporting prints exactly the six expected lines. -/
theorem final_reporting_prints_split_names_scores_witness :
    finalEvaluations gwEval () () false true argsW8 true =
      [OutputLine.header "dev", OutputLine.metric_names ["accuracy", "f1"],
       OutputLine.metric_scores [4, 7], OutputLine.header "test",
       OutputLine.metric_names ["accuracy", "f1"], OutputLine.metric_scores [4, 7]] :=
  ((final_reporting_prints_split_names_scores gwEval () () false true argsW8 true
    (fun _ _ _ _ => rfl)).1).trans rfl

/-! ## Early stopping (trainer state machine) -/

/-- Modelled from the spec: the early-stopping bookkeeping of
`DiffStringTrainer`, whose implementation is not among the source files.
Per the spec, the trainer keeps the best dev metric seen so far, a
patience counter, and the epoch of the last improvement (whose snapshot
is the resolved best snapshot). -/
structure EarlyStopState where
  best_metric : Option Int
  patience_counter : Nat
  best_epoch : Option Nat
deriving DecidableEq, Repr

/-- Modelled from the spec: a dev metric improves when it exceeds the
best metric seen so far (any first metric improves). -/
def improves (m : Int) : Option Int → Bool
  | none => true
  | some b => decide (b < m)

/-- Modelled from the spec: one dev evaluation updates the trainer
state — on improvement the best metric is replaced, the patience counter
resets to zero and the snapshot is taken at this epoch; otherwise the
counter increments and the best metric and snapshot stay. -/
def evalStep (st : EarlyStopState) (epoch : Nat) (m : Int) : EarlyStopState :=
  if improves m st.best_metric then ⟨some m, 0, some epoch⟩
  else ⟨st.best_metric, st.patience_counter + 1, st.best_epoch⟩

/-- Terminal report of a training run: early-stopped at a given
evaluation with the best-snapshot epoch, or completed with the epoch
budget exhausted. -/
inductive TrainOutcome where
  | earlyStopped (halt_epoch : Nat) (snapshot_epoch : Option Nat)
  | completed (snapshot_epoch : Option Nat)
deriving DecidableEq, Repr

/-- Modelled from the spec: the epoch loop over the remaining dev-metric
sequence.  At each evaluation the trainer first transitions to
`EarlyStopped` when the patience counter has reached the configured
patience threshold, reporting the best-snapshot epoch; otherwise it
performs the evaluation step and continues. -/
def runTraining (patience : Nat) : EarlyStopState → Nat → List Int → TrainOutcome
  | st, _, [] => TrainOutcome.completed st.best_epoch
  | st, epoch, m :: ms =>
    if st.patience_counter ≥ patience then TrainOutcome.earlyStopped epoch st.best_epoch
    else runTraining patience (evalStep st epoch m) (epoch + 1) ms

/-- If the patience counter is `j` short of the threshold and the next
`j + 1` metrics all fail to improve on the current best, training halts
exactly `j` evaluations later, reporting the current best-snapshot
epoch. -/
theorem runTraining_halts (patience : Nat) :
    ∀ (j : Nat) (st : EarlyStopState) (idx : Nat) (ms : List Int),
      st.patience_counter + j = patience →
      (∀ m ∈ ms.take (j + 1), improves m st.best_metric = false) →
      j < ms.length →
      runTraining patience st idx ms =
        TrainOutcome.earlyStopped (idx + j) st.best_epoch := by
  intro j
  induction j with
  | zero =>
    intro st idx ms hc hni hlen
    cases ms with
    | nil => simp at hlen
    | cons m ms' =>
      unfold runTraining
      rw [if_pos (by omega), Nat.add_zero]
  | succ j ih =>
    intro st idx ms hc hni hlen
    cases ms with
    | nil => simp at hlen
    | cons m ms' =>
      unfold runTraining
      rw [if_neg (by omega)]
      have hm : improves m st.best_metric = false :=
        hni m (by simp [List.take])
      have hstep : evalStep st idx m =
          ⟨st.best_metric, st.patience_counter + 1, st.best_epoch⟩ := by
        unfold evalStep
        rw [hm]
        rfl
      rw [hstep]
      have hrec := ih ⟨st.best_metric, st.patience_counter + 1, st.best_epoch⟩ (idx + 1) ms'
        (by simp; omega)
        (by
          intro m' hm'
          exact hni m' (by simp [List.take]; exact Or.inr hm'))
        (by simp at hlen ⊢; omega)
      rw [hrec]
      have harith : idx + 1 + j = idx + (j + 1) := by omega
      rw [harith]

/-! ## Claim theorem: early stopping (C6) -/

/-- Claim C6: the patience counter increments on each evaluation whose
dev metric fails to improve and resets to zero on improvement (taking the
snapshot); and from a state just after an improvement at epoch `e`
(counter zero, best-snapshot epoch `e`), when the following metrics fail
to improve for `patience + 1` consecutive evaluations, training halts at
exactly the `patience + 1`-th non-improving evaluation (epoch
`e + 1 + patience`) and reports the snapshot from epoch `e`. -/
theorem early_stopping_halts_at_patience_plus_one (patience : Nat)
    (st : EarlyStopState) (e : Nat) (ms : List Int)
    (hc : st.patience_counter = 0) (hbest : st.best_epoch = some e)
    (hlen : patience < ms.length)
    (hni : ∀ m ∈ ms.take (patience + 1), improves m st.best_metric = false) :
    runTraining patience st (e + 1) ms =
      TrainOutcome.earlyStopped (e + 1 + patience) (some e) ∧
    (∀ (st' : EarlyStopState) (ep : Nat) (m : Int),
      improves m st'.best_metric = false →
        (evalStep st' ep m).patience_counter = st'.patience_counter + 1 ∧
        (evalStep st' ep m).best_epoch = st'.best_epoch) ∧
    (∀ (st' : EarlyStopState) (ep : Nat) (m : Int),
      improves m st'.best_metric = true →
        (evalStep st' ep m).patience_counter = 0 ∧
        (evalStep st' ep m).best_epoch = some ep) := by
  refine ⟨?_, ?_, ?_⟩
  · have h := runTraining_halts patience patience st (e + 1) ms (by omega) hni hlen
    rw [h, hbest]
  · intro st' ep m hm
    unfold evalStep
    rw [hm]
    exact ⟨rfl, rfl⟩
  · intro st' ep m hm
    unfold evalStep
    rw [hm]
    exact ⟨rfl, rfl⟩

/-- Witness for C6: patience 2, best metric 10 recorded at epoch 5, and
three consecutive non-improving metrics; training halts at epoch 8 (the
third non-improving evaluation) reporting the epoch-5 snapshot, and one
concrete non-improving step increments the counter. -/
theorem early_stopping_halts_witness :
    runTraining 2 ⟨some 10, 0, some 5⟩ 6 [9, 8, 7] =
      TrainOutcome.earlyStopped 8 (some 5) ∧
    (evalStep ⟨some 10, 1, some 5⟩ 7 9).patience_counter = 2 := by
  have h := early_stopping_halts_at_patience_plus_one 2 ⟨some 10, 0, some 5⟩ 5 [9, 8, 7]
    rfl rfl (by decide) (by decide)
  exact ⟨h.1, (h.2.1 ⟨some 10, 1, some 5⟩ 7 9 (by decide)).1⟩

end Omniocular
